import Mathlib

/-!
# CleanSort server — notification dispatcher, shallow embedding

This file embeds the due-reminder notification dispatcher of
`src/server.js` (`checkAndSendNotifications`, lines 972-1233,
`startNotificationScheduler`, lines 1237-1255, and the manual trigger
endpoint, lines 399-408) and proves the specification claims about it.

Modelling conventions:
* Timestamps are `Int` milliseconds since the epoch.  The source stores
  ISO-8601 UTC strings produced by `Date.toISOString()` and compares them
  lexicographically; for such strings lexicographic order agrees with the
  numeric order of the instants, so `≤`/`>` on `Int` is a faithful image
  of the string comparisons at lines 989 and 1003.
* Firestore document data is embedded as Lean structures; a field that may
  be `undefined`/`null` in a document is an `Option`.  JavaScript
  truthiness of a string field (`if (!x)`) is the predicate `truthy`
  below: present and not the empty string.
* The document store (`db`) is a `Store` value threaded through the
  computation; each Firestore read/write of the source becomes a pure
  operation on `Store`.  Query results are returned in list (insertion)
  order, standing in for Firestore's document-id order: none of the
  properties proved here depends on which admissible order is used.
* The push gateway (`messaging.sendEachForMulticast`, line 1149) is a
  parameter `gw : Gateway`; a thrown exception is `Except.error`, a
  returned result is `Except.ok` with the per-token response vector.
* `new Date()` at line 1190 is a fresh clock read, distinct from the
  cycle's `now` of line 979; it is modelled by a parameter
  `writeClock : String → Int` giving the wall-clock instant at which the
  `lastNotificationSent` write for a given reminder id is issued.
-/

/-- Millisecond timestamp (image of an ISO-8601 string of the source). -/
abbrev Time := Int

/-- JavaScript truthiness of a possibly-missing string field:
`undefined`, `null` and `""` are falsy, every other string is truthy. -/
def truthy : Option String → Bool
  | none => false
  | some s => s ≠ ""

/-- A document of the `reminders` collection (`{id: doc.id, ...doc.data()}`,
line 1028). -/
structure Reminder where
  id : String
  itemId : Option String
  itemName : String
  category : Option String
  userId : Option String
  dueDate : Time
  status : String
  lastNotificationSent : Option Time
deriving Repr, DecidableEq

/-- A document of the `items` collection; only the fields the dispatcher
reads. -/
structure Item where
  id : String
  userId : Option String
deriving Repr, DecidableEq

/-- A document of a per-user `fcm_tokens/{userId}/tokens` subcollection:
its store-assigned id (`doc.ref`) and its `token` field. -/
structure TokenDoc where
  id : String
  token : String
deriving Repr, DecidableEq

/-- The document store visible to the dispatcher: the `reminders` and
`items` collections and the per-user token subcollections. -/
structure Store where
  reminders : List Reminder
  items : List Item
  fcmTokens : List (String × List TokenDoc)
deriving Repr, DecidableEq

namespace Store

/-- `db.collection('items').doc(iid).get()` (line 1043). -/
def getItem (st : Store) (iid : String) : Option Item :=
  st.items.find? (fun it => it.id == iid)

/-- `db.collection('reminders').doc(rid).delete()` (lines 1039, 1047, 1091,
1106). -/
def deleteReminder (st : Store) (rid : String) : Store :=
  { st with reminders := st.reminders.filter (fun r => r.id != rid) }

/-- `db.collection('reminders').doc(rid).update({ userId })` (lines 1085,
1097). -/
def updateReminderUserId (st : Store) (rid uid : String) : Store :=
  { st with reminders :=
      st.reminders.map (fun r => if r.id == rid then { r with userId := some uid } else r) }

/-- `db.collection('items').doc(iid).update({ userId })` (line 1084). -/
def updateItemUserId (st : Store) (iid uid : String) : Store :=
  { st with items :=
      st.items.map (fun it => if it.id == iid then { it with userId := some uid } else it) }

/-- `db.collection('reminders').doc(rid).update({ lastNotificationSent })`
(lines 1189-1191). -/
def setLastNotificationSent (st : Store) (rid : String) (t : Time) : Store :=
  { st with reminders :=
      st.reminders.map (fun r =>
        if r.id == rid then { r with lastNotificationSent := some t } else r) }

/-- `db.collection('fcm_tokens').doc(uid).collection('tokens').get()`
(lines 1120-1121). -/
def tokensFor (st : Store) (uid : String) : List TokenDoc :=
  ((st.fcmTokens.find? (fun p => p.1 == uid)).map Prod.snd).getD []

/-- `tokensSnapshot.docs[idx]?.ref.delete()` (line 1208). -/
def deleteToken (st : Store) (uid docId : String) : Store :=
  { st with fcmTokens :=
      st.fcmTokens.map (fun p =>
        if p.1 == uid then (p.1, p.2.filter (fun d => d.id != docId)) else p) }

end Store

/-! ## Due-Reminder Scanner (lines 979-1020) -/

/-- The lookahead window: `now.getTime() + 60 * 60 * 1000` (line 980). -/
def LOOKAHEAD_MS : Int := 60 * 60 * 1000

/-- The debounce window: `now.getTime() - 5 * 60 * 1000` (line 994). -/
def DEBOUNCE_MS : Int := 5 * 60 * 1000

/-- The store query `where('dueDate', '<=', oneHourFromNow)` (lines
988-990). -/
def dueQuery (now : Time) (st : Store) : List Reminder :=
  st.reminders.filter (fun r => decide (r.dueDate ≤ now + LOOKAHEAD_MS))

/-- The in-process filter of lines 996-1007: keep only status
`upcoming`/`overdue`, and drop a reminder whose `lastNotificationSent` is
present and later than `fiveMinutesAgo = now - DEBOUNCE_MS`. -/
def statusDebounceFilter (now : Time) (r : Reminder) : Bool :=
  if r.status != "upcoming" && r.status != "overdue" then false
  else
    match r.lastNotificationSent with
    | some t => !(decide (t > now - DEBOUNCE_MS))
    | none => true

/-- The Due-Reminder Scanner: the date-range query followed by the
in-process status/debounce filter (lines 988-1013). -/
def scanDueReminders (now : Time) (st : Store) : List Reminder :=
  (dueQuery now st).filter (statusDebounceFilter now)

/-! ## Owner Resolver (lines 1027-1114) -/

/-- Deletion reasons logged by the resolver, one per `console.log`/delete
site: lines 1037-1039 (`no itemId`), 1045-1047 (`item not found`),
1089-1091 (`cannot determine user`), 1104-1106 (`even after all
lookups`). -/
inductive DelReason where
  | noItemId
  | itemNotFound
  | unresolvable
  | postCheck
deriving Repr, DecidableEq

/-- A store read performed by the resolver, for cost accounting:
one `items` document fetch (line 1043), or one sibling-reminder query
returning `resultCount` documents (lines 1060-1063). -/
inductive StoreOp where
  | itemFetch
  | siblingQuery (resultCount : Nat)
deriving Repr, DecidableEq

/-- Result of resolving one reminder: `userId = some u` means the reminder
is grouped under `u`; `none` means it was deleted (`continue` in the
source).  `deleted` is the log of deletions, `ops` the store reads
performed. -/
structure ResolveResult where
  userId : Option String
  store : Store
  deleted : List (String × DelReason)
  ops : List StoreOp
deriving Repr

/-- The sibling-reminder query of lines 1060-1063:
`where('itemId', '==', iid).limit(10)`. -/
def siblingQuery (st : Store) (iid : String) : List Reminder :=
  (st.reminders.filter (fun s => s.itemId == some iid)).take 10

/-- The in-process filter of lines 1066-1072: keep sibling reminders whose
`userId` is truthy and not whitespace-only
(`data.userId && data.userId.trim() !== ''`). -/
def siblingHasUserId (s : Reminder) : Bool :=
  truthy s.userId && ((s.userId.getD "").trim != "")

/-- Owner resolution for one snapshot reminder, lines 1032-1101.
Branches in source order: reminder already has a truthy `userId`
(line 1034 false); missing `itemId` → delete (lines 1036-1041);
item fetch (line 1043); item not found → delete (lines 1044-1049);
item has truthy `userId` → backfill the reminder (lines 1094-1100);
otherwise sibling query (lines 1060-1077), first match → backfill item
and reminder (lines 1078-1087), none → delete (lines 1088-1093). -/
def resolveOwner (st : Store) (r : Reminder) : ResolveResult :=
  if truthy r.userId then
    ⟨r.userId, st, [], []⟩
  else if !truthy r.itemId then
    ⟨none, st.deleteReminder r.id, [(r.id, .noItemId)], []⟩
  else
    let iid := r.itemId.getD ""
    match st.getItem iid with
    | none => ⟨none, st.deleteReminder r.id, [(r.id, .itemNotFound)], [.itemFetch]⟩
    | some item =>
      if truthy item.userId then
        let u := item.userId.getD ""
        ⟨some u, st.updateReminderUserId r.id u, [], [.itemFetch]⟩
      else
        let sibs := siblingQuery st iid
        match sibs.filter siblingHasUserId with
        | [] =>
          ⟨none, st.deleteReminder r.id, [(r.id, .unresolvable)],
            [.itemFetch, .siblingQuery sibs.length]⟩
        | s :: _ =>
          let u := s.userId.getD ""
          ⟨some u, (st.updateItemUserId iid u).updateReminderUserId r.id u, [],
            [.itemFetch, .siblingQuery sibs.length]⟩

/-- Owner resolution followed by the defensive re-check of lines
1103-1108 (`if (!userId)` after the lookup block): a falsy resolved
`userId` would delete the reminder as well. -/
def resolveOwnerChecked (st : Store) (r : Reminder) : ResolveResult :=
  let res := resolveOwner st r
  match res.userId with
  | some u =>
      if u == "" then
        ⟨none, res.store.deleteReminder r.id, res.deleted ++ [(r.id, .postCheck)], res.ops⟩
      else res
  | none => res

/-- `remindersByUser[userId].push(reminder)` with on-demand creation of the
group (lines 1110-1113); groups keep insertion order. -/
def pushGroup (groups : List (String × List Reminder)) (u : String) (r : Reminder) :
    List (String × List Reminder) :=
  if groups.any (fun p => p.1 == u) then
    groups.map (fun p => if p.1 == u then (p.1, p.2 ++ [r]) else p)
  else
    groups ++ [(u, [r])]

/-- State after the grouping loop of lines 1026-1114. -/
structure ResolvePhaseResult where
  store : Store
  groups : List (String × List Reminder)
  deleted : List (String × DelReason)
deriving Repr

/-- One iteration of the resolver/grouping loop `for (const doc of
remindersSnapshot.docs)` (lines 1027-1114): resolve the snapshot reminder
against the current store; on success group it under the resolved user id
(lines 1110-1113), otherwise `continue`; accumulate the deletion log. -/
def resolveStep (acc : ResolvePhaseResult) (r : Reminder) : ResolvePhaseResult :=
  let res := resolveOwnerChecked acc.store r
  match res.userId with
  | some u => ⟨res.store, pushGroup acc.groups u r, acc.deleted ++ res.deleted⟩
  | none => ⟨res.store, acc.groups, acc.deleted ++ res.deleted⟩

/-- The resolver/grouping loop as a fold of `resolveStep` over the
snapshot. -/
def resolvePhase (st : Store) (docs : List Reminder) : ResolvePhaseResult :=
  docs.foldl resolveStep ⟨st, [], []⟩

/-! ## Push Gateway and Dispatch Batcher (lines 1117-1222) -/

/-- One entry of `response.responses`: `success` plus, when present,
`error.code`. -/
structure TokenResp where
  success : Bool
  errorCode : Option String
deriving Repr, DecidableEq

/-- The return value of `messaging.sendEachForMulticast` (line 1149). -/
structure MulticastResponse where
  responses : List TokenResp
deriving Repr, DecidableEq

/-- `response.successCount`. -/
def MulticastResponse.successCount (m : MulticastResponse) : Nat :=
  m.responses.countP (fun resp => resp.success)

/-- `response.failureCount`. -/
def MulticastResponse.failureCount (m : MulticastResponse) : Nat :=
  m.responses.countP (fun resp => !resp.success)

/-- The multicast message built at lines 1133-1167: the full token list,
fixed title, body embedding the item name, the data payload, and the
iOS badge count (`userReminders.length`). -/
structure PushMessage where
  tokens : List String
  title : String
  body : String
  reminderId : String
  itemId : Option String
  itemName : String
  category : String
  dueDate : Time
  badgeCount : Nat
deriving Repr, DecidableEq

/-- The payload construction of lines 1133-1146 for one reminder. -/
def buildMessage (r : Reminder) (tokens : List String) (badge : Nat) : PushMessage :=
  { tokens := tokens
    title := "CleanSort Reminder"
    body := "Time to dispose: " ++ r.itemName
    reminderId := r.id
    itemId := r.itemId
    itemName := r.itemName
    category := r.category.getD ""
    dueDate := r.dueDate
    badgeCount := badge }

/-- The Push Gateway: `Except.error` models a thrown exception (caught at
line 1214), `Except.ok` a returned per-token result vector. -/
def Gateway : Type := PushMessage → Except String MulticastResponse

/-- The two permanent error classes of lines 1205-1206. -/
def isPermanentError (code : String) : Bool :=
  code == "messaging/invalid-registration-token" ||
  code == "messaging/registration-token-not-registered"

/-- A per-token response that triggers a deletion at lines 1201-1211:
failed, with an error whose code is permanent. -/
def permanentFailure (resp : TokenResp) : Bool :=
  !resp.success &&
    (match resp.errorCode with
     | some code => isPermanentError code
     | none => false)

/-- The `response.responses.forEach((resp, idx) => ...)` walk of lines
1201-1212, carrying the running index: on a permanent failure delete
`tokensSnapshot.docs[idx]` (the `?.` makes an out-of-range index a
no-op). -/
def pruneTokensAux (uid : String) (docs : List TokenDoc) :
    Nat → List TokenResp → Store → Store
  | _, [], st => st
  | idx, resp :: rest, st =>
      let st' :=
        if permanentFailure resp then
          match docs.get? idx with
          | some d => st.deleteToken uid d.id
          | none => st
        else st
      pruneTokensAux uid docs (idx + 1) rest st'

/-- The Token Pruner (lines 1196-1213): walk the result vector aligned by
index with the token snapshot and delete the permanently-failed tokens. -/
def pruneTokens (st : Store) (uid : String) (docs : List TokenDoc)
    (resps : List TokenResp) : Store :=
  pruneTokensAux uid docs 0 resps st

/-- Accumulator of the dispatch loops: the store, the running
`sentCount`/`failedCount` (lines 1022-1023), and the trace of gateway
invocations in order. -/
structure DispatchAcc where
  store : Store
  sent : Nat
  failed : Nat
  calls : List PushMessage
deriving Repr

/-- The body of the inner per-reminder loop (lines 1132-1218) for one
reminder: build the payload, invoke the gateway (the invocation is
recorded in `calls` whether or not it throws); on a thrown exception
count one failure and continue (lines 1214-1217); on a returned response
write `lastNotificationSent` at the current wall clock (lines 1189-1191),
add the success count, and when there are failures add them and run the
Token Pruner. -/
def sendForReminder (gw : Gateway) (uid : String) (tokens : List String)
    (tokenDocs : List TokenDoc) (badge : Nat) (writeTime : Time)
    (acc : DispatchAcc) (r : Reminder) : DispatchAcc :=
  let msg := buildMessage r tokens badge
  let acc := { acc with calls := acc.calls ++ [msg] }
  match gw msg with
  | .error _ => { acc with failed := acc.failed + 1 }
  | .ok resp =>
      let st := acc.store.setLastNotificationSent r.id writeTime
      let sent := acc.sent + resp.successCount
      if resp.failureCount > 0 then
        { store := pruneTokens st uid tokenDocs resp.responses
          sent := sent
          failed := acc.failed + resp.failureCount
          calls := acc.calls }
      else
        { acc with store := st, sent := sent }

/-- The inner per-reminder loop `for (const reminder of userReminders)`
(lines 1132-1218), with the token list, token snapshot and badge count
fixed at group entry. -/
def groupFold (gw : Gateway) (writeClock : String → Time) (uid : String)
    (tokens : List String) (tokenDocs : List TokenDoc) (badge : Nat)
    (rs : List Reminder) (acc : DispatchAcc) : DispatchAcc :=
  rs.foldl
    (fun a r => sendForReminder gw uid tokens tokenDocs badge (writeClock r.id) a r)
    acc

/-- One user group of the outer loop (lines 1117-1131): fetch the user's
token documents once; if there are none, skip the group (lines
1123-1126); otherwise map out the token strings (line 1128) and run the
per-reminder loop over the group with that fixed list. -/
def dispatchGroup (gw : Gateway) (writeClock : String → Time)
    (acc : DispatchAcc) (group : String × List Reminder) : DispatchAcc :=
  let uid := group.1
  let userReminders := group.2
  let tokenDocs := acc.store.tokensFor uid
  if tokenDocs.isEmpty then acc
  else
    groupFold gw writeClock uid (tokenDocs.map (fun d => d.token)) tokenDocs
      userReminders.length userReminders acc

/-- The outer loop `for (const [userId, userReminders] of
Object.entries(remindersByUser))` (lines 1117-1222). -/
def dispatchPhase (gw : Gateway) (writeClock : String → Time) (st : Store)
    (groups : List (String × List Reminder)) : DispatchAcc :=
  groups.foldl (dispatchGroup gw writeClock) ⟨st, 0, 0, []⟩

/-! ## The full cycle and the Scheduler Loop -/

/-- Observable outcome of one `checkAndSendNotifications` cycle. -/
structure CycleResult where
  store : Store
  groups : List (String × List Reminder)
  deleted : List (String × DelReason)
  calls : List PushMessage
  sent : Nat
  failed : Nat
deriving Repr

/-- One dispatch cycle, `checkAndSendNotifications` (lines 972-1233) with
`db`/`messaging` available: scan, early return when nothing is due
(lines 1017-1020), resolve owners and group, dispatch.  `now` is the
`new Date()` of line 979; `writeClock rid` is the `new Date()` of line
1190 for the write of reminder `rid`. -/
def checkAndSendNotifications (gw : Gateway) (writeClock : String → Time)
    (now : Time) (st : Store) : CycleResult :=
  let eligible := scanDueReminders now st
  if eligible.isEmpty then ⟨st, [], [], [], 0, 0⟩
  else
    let rp := resolvePhase st eligible
    let da := dispatchPhase gw writeClock rp.store rp.groups
    ⟨da.store, rp.groups, rp.deleted, da.calls, da.sent, da.failed⟩

/-- Outcome of `startNotificationScheduler` (lines 1237-1255). -/
inductive SchedulerStart where
  /-- `db` or `messaging` missing: no timer is registered (lines
  1238-1241). -/
  | disabled
  /-- Both available: a one-shot timer after `initialDelayMs` and a
  recurring timer every `intervalMs`, each running one cycle (lines
  1244-1252). -/
  | started (initialDelayMs intervalMs : Nat)
deriving Repr, DecidableEq

/-- `startNotificationScheduler` (lines 1237-1255): the guard
`if (!db || !messaging)` logs that the scheduler is not started and
returns; otherwise `setTimeout(..., 10000)` and
`setInterval(..., 5 * 60 * 1000)` are registered.  The returned log lines
are the `console.log` calls of lines 1239 and 1254. -/
def startNotificationScheduler (dbAvailable messagingAvailable : Bool) :
    SchedulerStart × List String :=
  if !dbAvailable || !messagingAvailable then
    (.disabled, ["⏭️  Notification scheduler not started - Firebase not available"])
  else
    (.started 10000 (5 * 60 * 1000),
     ["✅ Notification scheduler started (runs every 5 minutes)"])

/-- The instants at which the registered timers run a cycle, measured from
the registration instant `t0`: a `setTimeout(f, d)` fires once at
`t0 + d` (line 1244), a `setInterval(f, i)` fires at `t0 + i`,
`t0 + 2*i`, ... (line 1250).  `none` when the scheduler was not
started. -/
def cycleFireTime (start : SchedulerStart) (t0 : Time) (n : Nat) : Option Time :=
  match start with
  | .disabled => none
  | .started d i => some (if n = 0 then t0 + (d : Int) else t0 + (i : Int) * (n : Int))

/-! ## Overlap (re-entrancy) model for the Scheduler Loop

The source registers `() => { checkAndSendNotifications(); }` as the
interval callback (lines 1250-1252) and the trigger endpoint awaits
`checkAndSendNotifications()` (lines 399-408).  `checkAndSendNotifications`
is `async`; invoking it starts one more in-flight cycle.  Neither call
site reads or writes any guard state — no such variable exists anywhere in
`server.js` — so the effect of a timer fire or a manual trigger on the
number of in-flight cycles is unconditional. -/

/-- The dispatcher's process-level state: how many cycles are currently in
flight. -/
structure DispatcherProcess where
  inFlightCycles : Nat
deriving Repr, DecidableEq

/-- Effect of the `setInterval` callback (lines 1250-1252) at the moment
it fires: it unconditionally invokes the async cycle, adding one
in-flight cycle regardless of how many are already running. -/
def intervalCallbackFires (p : DispatcherProcess) : DispatcherProcess :=
  { inFlightCycles := p.inFlightCycles + 1 }

/-- Effect of `POST /api/notifications/trigger` (lines 399-408) at the
moment the handler starts the cycle: also unconditional. -/
def triggerEndpointFires (p : DispatcherProcess) : DispatcherProcess :=
  { inFlightCycles := p.inFlightCycles + 1 }

/-! ## Derived predicates and concrete instances used by the theorems -/

def c1Reminder : Reminder :=
  ⟨"r1", some "i1", "Milk", none, some "u1", 0, "upcoming", some 0⟩

def c1Store : Store := ⟨[c1Reminder], [], []⟩

/-- The claim's "owner cannot be established" condition for a reminder
lacking its own `userId`: no `itemId`, referenced item absent, or the
item and every sibling reminder returned by the bounded lookup lack a
non-empty `userId`. -/
def ownerUnresolvable (st : Store) (r : Reminder) : Prop :=
  truthy r.itemId = false ∨
  (∃ iid, r.itemId = some iid ∧ st.getItem iid = none) ∨
  (∃ iid item, r.itemId = some iid ∧ st.getItem iid = some item ∧
    truthy item.userId = false ∧
    ∀ s ∈ siblingQuery st iid, truthy s.userId = false)

def c2Reminder : Reminder := ⟨"r3", none, "X", none, none, 0, "overdue", none⟩

def c2Store : Store := ⟨[c2Reminder], [], []⟩

def c3Reminder : Reminder := ⟨"r1", some "i1", "Milk", none, some "", 0, "upcoming", none⟩

def c3Item : Item := ⟨"i1", some "u1"⟩

def c3Store : Store := ⟨[c3Reminder], [c3Item], []⟩

/-- Is this store read the item fetch? -/
def StoreOp.isItemFetch : StoreOp → Bool
  | .itemFetch => true
  | .siblingQuery _ => false

/-- Is this store read the sibling-reminder query? -/
def StoreOp.isSiblingQuery : StoreOp → Bool
  | .itemFetch => false
  | .siblingQuery _ => true

/-- Does this store read return at most 10 documents?  (Trivially true for
the single-document item fetch.) -/
def StoreOp.bounded : StoreOp → Bool
  | .itemFetch => true
  | .siblingQuery k => decide (k ≤ 10)

/-- Ids of the token documents the pruner walk deletes: those at indices
whose response is a permanent failure. -/
def permIds (docs : List TokenDoc) : Nat → List TokenResp → List String
  | _, [] => []
  | i, resp :: rest =>
      (if permanentFailure resp then
        match docs.get? i with
        | some d => [d.id]
        | none => []
      else []) ++ permIds docs (i + 1) rest

def c6Store : Store :=
  ⟨[], [], [("u1", [⟨"d1", "tA"⟩, ⟨"d2", "tB"⟩, ⟨"d3", "tC"⟩])]⟩

def c6Resps : List TokenResp :=
  [⟨true, none⟩, ⟨false, some "messaging/invalid-registration-token"⟩, ⟨true, none⟩]

/-- "The store records `lastNotificationSent = t` for reminder `rid`":
every stored reminder with that id carries that timestamp. -/
def RecordedAt (l : List Reminder) (rid : String) (t : Time) : Prop :=
  ∀ s ∈ l, s.id = rid → s.lastNotificationSent = some t

def c5Reminder : Reminder :=
  ⟨"r1", some "i1", "Milk", some "wet", some "u1", 600000, "upcoming", none⟩

def c5Store : Store :=
  ⟨[c5Reminder], [⟨"i1", some "u1"⟩], [("u1", [⟨"d1", "tokA"⟩])]⟩

def c5Gateway : Gateway := fun _ => .ok ⟨[⟨true, none⟩]⟩

def c5WriteClock : String → Time := fun _ => 1000

def c5Out : Reminder :=
  ⟨"r1", some "i1", "Milk", some "wet", some "u1", 600000, "upcoming", some 1000⟩

def c7ReminderA : Reminder := ⟨"rA", some "i1", "A", none, some "u1", 0, "upcoming", none⟩

def c7ReminderB : Reminder := ⟨"rB", some "i1", "B", none, some "u1", 0, "overdue", none⟩

def c7ReminderC : Reminder := ⟨"rC", some "i2", "C", none, some "u2", 0, "upcoming", none⟩

def c7Store : Store :=
  ⟨[c7ReminderA, c7ReminderB, c7ReminderC], [],
    [("u1", [⟨"d1", "tA"⟩]), ("u2", [⟨"d2", "tB"⟩])]⟩

def c7Gateway : Gateway := fun m =>
  if m.reminderId == "rA" then .error "boom" else .ok ⟨[⟨true, none⟩]⟩

def c7Groups : List (String × List Reminder) :=
  [("u1", [c7ReminderA, c7ReminderB]), ("u2", [c7ReminderC])]

/-! ## Theorems -/

/-- Characterization of the in-process status/debounce filter of lines
996-1007. -/
theorem statusDebounceFilter_iff (now : Time) (r : Reminder) :
    statusDebounceFilter now r = true ↔
      (r.status = "upcoming" ∨ r.status = "overdue") ∧
      (r.lastNotificationSent = none ∨
        ∃ t, r.lastNotificationSent = some t ∧ t ≤ now - DEBOUNCE_MS) := by
  unfold statusDebounceFilter
  cases h : r.lastNotificationSent with
  | none =>
      simp only [h, Bool.and_eq_true, bne_iff_ne, ne_eq]
      split_ifs with hc
      · simp only [Bool.false_eq_true, false_iff]
        tauto
      · push_neg at hc
        tauto
  | some t =>
      simp only [h, Bool.and_eq_true, bne_iff_ne, ne_eq]
      split_ifs with hc
      · simp only [Bool.false_eq_true, false_iff]
        tauto
      · push_neg at hc
        simp only [Bool.not_eq_true', decide_eq_false_iff_not, not_lt,
          Option.some.injEq, reduceCtorEq, false_or]
        constructor
        · intro hle
          exact ⟨by tauto, t, rfl, hle⟩
        · rintro ⟨-, t', ht', hle⟩
          cases ht'
          exact hle

/-- Membership in the scanner output, unfolded to the query condition and
the in-process filter. -/
theorem mem_scanDueReminders (now : Time) (st : Store) (r : Reminder) :
    r ∈ scanDueReminders now st ↔
      r ∈ st.reminders ∧ r.dueDate ≤ now + LOOKAHEAD_MS ∧
        statusDebounceFilter now r = true := by
  unfold scanDueReminders dueQuery
  simp only [List.mem_filter, decide_eq_true_eq]
  tauto

/-- C1: the Due-Reminder Scanner selects a stored reminder if and only if
its `dueDate` is at most `now + 1h`, its status is `upcoming` or
`overdue`, and its `lastNotificationSent` is absent or at most
`now - 5min` (the implemented debounce window is the open ray
`(now - 5min, ∞)`); and a reminder whose debounce window has elapsed by a
later cycle time is selected again at that cycle when still due. -/
theorem scanner_selects_iff :
    (∀ (now : Time) (st : Store) (r : Reminder), r ∈ st.reminders →
      (r ∈ scanDueReminders now st ↔
        r.dueDate ≤ now + LOOKAHEAD_MS ∧
        (r.status = "upcoming" ∨ r.status = "overdue") ∧
        (r.lastNotificationSent = none ∨
          ∃ t, r.lastNotificationSent = some t ∧ t ≤ now - DEBOUNCE_MS))) ∧
    (∀ (later : Time) (st : Store) (r : Reminder) (t : Time), r ∈ st.reminders →
      r.lastNotificationSent = some t → t ≤ later - DEBOUNCE_MS →
      r.dueDate ≤ later + LOOKAHEAD_MS →
      (r.status = "upcoming" ∨ r.status = "overdue") →
      r ∈ scanDueReminders later st) := by
  constructor
  · intro now st r hr
    rw [mem_scanDueReminders, statusDebounceFilter_iff]
    tauto
  · intro later st r t hr hlast hle hdue hs
    rw [mem_scanDueReminders, statusDebounceFilter_iff]
    exact ⟨hr, hdue, hs, Or.inr ⟨t, hlast, hle⟩⟩

/-- Concrete instance of `scanner_selects_iff`: a reminder last notified
at time 0 is selected again at cycle time `DEBOUNCE_MS` (the debounce
window has elapsed). -/
theorem scanner_selects_iff_witness :
    c1Reminder ∈ scanDueReminders DEBOUNCE_MS c1Store :=
  scanner_selects_iff.2 DEBOUNCE_MS c1Store c1Reminder 0 (by decide) rfl
    (by decide) (by decide) (Or.inl rfl)

theorem resolveOwnerChecked_userId_ne_empty (st : Store) (r : Reminder) (u : String)
    (h : (resolveOwnerChecked st r).userId = some u) : u ≠ "" := by
  unfold resolveOwnerChecked at h
  simp only at h
  cases hres : (resolveOwner st r).userId with
  | none =>
      simp only [hres] at h
      exact Option.noConfusion h
  | some v =>
      simp only [hres] at h
      by_cases hv : v = ""
      · rw [if_pos (by simp [hv])] at h
        cases h
      · rw [if_neg (by simp [hv])] at h
        rw [hres] at h
        cases h
        exact hv

/-- `pushGroup` preserves a property of the group keys, given it for the
new key. -/
theorem pushGroup_keys {P : String → Prop} (groups : List (String × List Reminder))
    (u : String) (r : Reminder) (hg : ∀ p ∈ groups, P p.1) (hu : P u) :
    ∀ p ∈ pushGroup groups u r, P p.1 := by
  unfold pushGroup
  split_ifs with hc
  · intro p hp
    simp only [List.mem_map] at hp
    obtain ⟨q, hq, rfl⟩ := hp
    split
    · exact hg q hq
    · exact hg q hq
  · intro p hp
    rcases List.mem_append.mp hp with h | h
    · exact hg p h
    · simp only [List.mem_singleton] at h
      subst h
      exact hu

/-- All group keys produced by the resolver fold are non-empty. -/
theorem foldl_resolveStep_keys (docs : List Reminder) :
    ∀ (acc : ResolvePhaseResult), (∀ p ∈ acc.groups, p.1 ≠ "") →
      ∀ p ∈ (docs.foldl resolveStep acc).groups, p.1 ≠ "" := by
  induction docs with
  | nil => intro acc hacc; exact hacc
  | cons r docs ih =>
      intro acc hacc
      rw [List.foldl_cons]
      apply ih
      unfold resolveStep
      simp only
      cases hres : (resolveOwnerChecked acc.store r).userId with
      | none => simp only [hres]; exact hacc
      | some u =>
          simp only [hres]
          exact pushGroup_keys (P := fun x => x ≠ "") acc.groups u r hacc
            (resolveOwnerChecked_userId_ne_empty acc.store r u hres)

theorem resolveOwner_no_itemId (st : Store) (r : Reminder)
    (hu : truthy r.userId = false) (hi : truthy r.itemId = false) :
    resolveOwner st r =
      ⟨none, st.deleteReminder r.id, [(r.id, .noItemId)], []⟩ := by
  unfold resolveOwner
  rw [hu, hi]
  simp

theorem resolveOwner_item_missing (st : Store) (r : Reminder) (iid : String)
    (hu : truthy r.userId = false) (hiid : r.itemId = some iid) (hne : iid ≠ "")
    (hitem : st.getItem iid = none) :
    resolveOwner st r =
      ⟨none, st.deleteReminder r.id, [(r.id, .itemNotFound)], [.itemFetch]⟩ := by
  have hti : truthy r.itemId = true := by
    rw [hiid]; simpa [truthy] using hne
  unfold resolveOwner
  rw [hu, hti]
  simp only [Bool.false_eq_true, if_false, Bool.not_true, hiid, Option.getD_some]
  rw [hitem]

theorem resolveOwner_siblings_empty (st : Store) (r : Reminder) (iid : String)
    (item : Item)
    (hu : truthy r.userId = false) (hiid : r.itemId = some iid) (hne : iid ≠ "")
    (hitem : st.getItem iid = some item) (hiu : truthy item.userId = false)
    (hsib : ∀ s ∈ siblingQuery st iid, truthy s.userId = false) :
    resolveOwner st r =
      ⟨none, st.deleteReminder r.id, [(r.id, .unresolvable)],
        [.itemFetch, .siblingQuery (siblingQuery st iid).length]⟩ := by
  have hti : truthy r.itemId = true := by
    rw [hiid]; simpa [truthy] using hne
  have hfilter : (siblingQuery st iid).filter siblingHasUserId = [] := by
    rw [List.filter_eq_nil_iff]
    intro s hs
    simp [siblingHasUserId, hsib s hs]
  unfold resolveOwner
  rw [hu, hti]
  simp only [Bool.false_eq_true, if_false, Bool.not_true, hiid, Option.getD_some]
  rw [hitem]
  simp only [hiu, Bool.false_eq_true, if_false]
  rw [hfilter]

theorem resolveOwner_item_userId (st : Store) (r : Reminder) (iid : String)
    (item : Item) (u : String)
    (hu : truthy r.userId = false) (hiid : r.itemId = some iid) (hne : iid ≠ "")
    (hitem : st.getItem iid = some item) (hiu : item.userId = some u) (hune : u ≠ "") :
    resolveOwner st r =
      ⟨some u, st.updateReminderUserId r.id u, [], [.itemFetch]⟩ := by
  have hti : truthy r.itemId = true := by
    rw [hiid]; simpa [truthy] using hne
  have htu : truthy (some u) = true := by
    simpa [truthy] using hune
  unfold resolveOwner
  rw [hu, hti]
  simp only [Bool.false_eq_true, if_false, Bool.not_true, hiid, Option.getD_some]
  rw [hitem]
  simp only [hiu, htu, if_true, Option.getD_some]

theorem resolveOwnerChecked_of_userId_none (st : Store) (r : Reminder)
    (h : (resolveOwner st r).userId = none) :
    resolveOwnerChecked st r = resolveOwner st r := by
  unfold resolveOwnerChecked
  simp only [h]

theorem resolveOwnerChecked_of_userId_some (st : Store) (r : Reminder) (u : String)
    (h : (resolveOwner st r).userId = some u) (hne : u ≠ "") :
    resolveOwnerChecked st r = resolveOwner st r := by
  unfold resolveOwnerChecked
  simp only [h]
  rw [if_neg (by simpa using hne)]

/-- Every reminder surviving in a store after `deleteReminder rid` has an
id different from `rid`. -/
theorem deleteReminder_id_ne (st : Store) (rid : String) :
    ∀ s ∈ (st.deleteReminder rid).reminders, s.id ≠ rid := by
  intro s hs
  unfold Store.deleteReminder at hs
  simp only [List.mem_filter, bne_iff_ne, ne_eq] at hs
  exact hs.2

/-- C2: after the Owner Resolver, every reminder grouped for dispatch is
grouped under a non-empty user id; and an eligible reminder lacking its
own `userId` whose owner cannot be established (missing `itemId`,
referenced item absent, or neither the item nor any sibling in the
bounded lookup carrying a non-empty `userId`) is deleted from the store
with a reason logged. -/
theorem owner_resolver_guarantee :
    (∀ (st : Store) (docs : List Reminder) (p : String × List Reminder),
        p ∈ (resolvePhase st docs).groups → p.1 ≠ "") ∧
    (∀ (now : Time) (st : Store) (r : Reminder),
        r ∈ scanDueReminders now st →
        truthy r.userId = false →
        ownerUnresolvable st r →
        (resolveOwnerChecked st r).userId = none ∧
        (∀ s ∈ (resolveOwnerChecked st r).store.reminders, s.id ≠ r.id) ∧
        ∃ reason, (resolveOwnerChecked st r).deleted = [(r.id, reason)]) := by
  constructor
  · intro st docs p hp
    exact foldl_resolveStep_keys docs ⟨st, [], []⟩ (by intro q hq; cases hq) p hp
  · intro now st r _hmem hu hun
    have hdel : (resolveOwner st r).userId = none ∧
        (resolveOwner st r).store = st.deleteReminder r.id ∧
        ∃ reason, (resolveOwner st r).deleted = [(r.id, reason)] := by
      rcases hun with h2 | ⟨iid, hiid, hitem⟩ | ⟨iid, item, hiid, hitem, hiu, hsib⟩
      · rw [resolveOwner_no_itemId st r hu h2]
        exact ⟨rfl, rfl, .noItemId, rfl⟩
      · by_cases hne : iid = ""
        · have h2 : truthy r.itemId = false := by
            subst hne; rw [hiid]; decide
          rw [resolveOwner_no_itemId st r hu h2]
          exact ⟨rfl, rfl, .noItemId, rfl⟩
        · rw [resolveOwner_item_missing st r iid hu hiid hne hitem]
          exact ⟨rfl, rfl, .itemNotFound, rfl⟩
      · by_cases hne : iid = ""
        · have h2 : truthy r.itemId = false := by
            subst hne; rw [hiid]; decide
          rw [resolveOwner_no_itemId st r hu h2]
          exact ⟨rfl, rfl, .noItemId, rfl⟩
        · rw [resolveOwner_siblings_empty st r iid item hu hiid hne hitem hiu hsib]
          exact ⟨rfl, rfl, .unresolvable, rfl⟩
    obtain ⟨h1, h2, reason, h3⟩ := hdel
    have hc : resolveOwnerChecked st r = resolveOwner st r :=
      resolveOwnerChecked_of_userId_none st r h1
    refine ⟨by rw [hc]; exact h1, ?_, ?_⟩
    · rw [hc, h2]
      exact deleteReminder_id_ne st r.id
    · rw [hc]
      exact ⟨reason, h3⟩

/-- Concrete instance of `owner_resolver_guarantee`: an eligible reminder
with no `userId` and no `itemId` is deleted and the deletion logged. -/
theorem owner_resolver_guarantee_witness :
    (resolveOwnerChecked c2Store c2Reminder).userId = none ∧
    (∀ s ∈ (resolveOwnerChecked c2Store c2Reminder).store.reminders,
        s.id ≠ c2Reminder.id) ∧
    ∃ reason, (resolveOwnerChecked c2Store c2Reminder).deleted =
      [(c2Reminder.id, reason)] :=
  owner_resolver_guarantee.2 0 c2Store c2Reminder (by decide) (by decide)
    (Or.inl (by decide))

/-- Updating a reminder's `userId` leaves the `items` collection
untouched. -/
theorem updateReminderUserId_getItem (st : Store) (rid uid iid : String) :
    (st.updateReminderUserId rid uid).getItem iid = st.getItem iid := rfl

/-- After `updateReminderUserId rid uid`, every stored reminder with id
`rid` carries `userId = some uid`. -/
theorem mem_updateReminderUserId (st : Store) (rid uid : String) :
    ∀ s ∈ (st.updateReminderUserId rid uid).reminders, s.id = rid →
      s.userId = some uid := by
  intro s hs hid
  unfold Store.updateReminderUserId at hs
  simp only [List.mem_map] at hs
  obtain ⟨q, hq, rfl⟩ := hs
  by_cases h : q.id = rid
  · simp [h]
  · rw [if_neg (by simpa using h)] at hid ⊢
    exact absurd hid h

/-- C3: for an eligible reminder lacking a `userId` whose referenced item
exists and carries one, the resolver adopts the item's `userId`; after
this step the reminder record in the store carries it, and the item in
the store still carries it (the write-back onto the item is a no-op since
the adopted value came from the item itself). -/
theorem owner_resolver_adopts_item_userId :
    ∀ (st : Store) (r : Reminder) (iid : String) (item : Item) (u : String),
      truthy r.userId = false →
      r.itemId = some iid → iid ≠ "" →
      st.getItem iid = some item →
      item.userId = some u → u ≠ "" →
      (resolveOwnerChecked st r).userId = some u ∧
      (resolveOwnerChecked st r).deleted = [] ∧
      (∃ item', (resolveOwnerChecked st r).store.getItem iid = some item' ∧
        item'.userId = some u) ∧
      (∀ s ∈ (resolveOwnerChecked st r).store.reminders, s.id = r.id →
        s.userId = some u) := by
  intro st r iid item u hu hiid hne hitem hiu hune
  have hres := resolveOwner_item_userId st r iid item u hu hiid hne hitem hiu hune
  have hc : resolveOwnerChecked st r = resolveOwner st r :=
    resolveOwnerChecked_of_userId_some st r u (by rw [hres]) hune
  rw [hc, hres]
  refine ⟨rfl, rfl, ⟨item, ?_, hiu⟩, ?_⟩
  · rw [updateReminderUserId_getItem]
    exact hitem
  · exact mem_updateReminderUserId st r.id u

/-- Concrete instance of `owner_resolver_adopts_item_userId`: the
`userId = ""` reminder adopts `"u1"` from its item. -/
theorem owner_resolver_adopts_item_userId_witness :
    (resolveOwnerChecked c3Store c3Reminder).userId = some "u1" ∧
    (resolveOwnerChecked c3Store c3Reminder).deleted = [] ∧
    (∃ item', (resolveOwnerChecked c3Store c3Reminder).store.getItem "i1" = some item' ∧
      item'.userId = some "u1") ∧
    (∀ s ∈ (resolveOwnerChecked c3Store c3Reminder).store.reminders,
        s.id = c3Reminder.id → s.userId = some "u1") :=
  owner_resolver_adopts_item_userId c3Store c3Reminder "i1" c3Item "u1"
    (by decide) rfl (by decide) (by decide) rfl (by decide)

/-- The `limit(10)` clause caps the sibling query's result count. -/
theorem siblingQuery_length_le (st : Store) (iid : String) :
    (siblingQuery st iid).length ≤ 10 := by
  unfold siblingQuery
  exact List.length_take_le 10 _

/-- The defensive re-check performs no store reads of its own. -/
theorem resolveOwnerChecked_ops (st : Store) (r : Reminder) :
    (resolveOwnerChecked st r).ops = (resolveOwner st r).ops := by
  unfold resolveOwnerChecked
  simp only
  cases h : (resolveOwner st r).userId with
  | none => simp only [h]
  | some u =>
      simp only [h]
      split_ifs <;> rfl

/-- The store reads performed by `resolveOwner` take one of three shapes:
none, a single item fetch, or an item fetch followed by one sibling
query returning at most 10 documents. -/
theorem resolveOwner_ops_cases (st : Store) (r : Reminder) :
    (resolveOwner st r).ops = [] ∨
    (resolveOwner st r).ops = [.itemFetch] ∨
    ∃ k, k ≤ 10 ∧ (resolveOwner st r).ops = [.itemFetch, .siblingQuery k] := by
  unfold resolveOwner
  split_ifs with h1 h2
  · exact Or.inl rfl
  · exact Or.inl rfl
  · simp only
    cases hgi : st.getItem (r.itemId.getD "") with
    | none => simp [hgi]
    | some item =>
        simp only [hgi]
        split_ifs with h3
        · simp
        · cases hfil : (siblingQuery st (r.itemId.getD "")).filter siblingHasUserId with
          | nil =>
              simp only [hfil]
              exact Or.inr (Or.inr ⟨_, siblingQuery_length_le st _, rfl⟩)
          | cons s tail =>
              simp only [hfil]
              exact Or.inr (Or.inr ⟨_, siblingQuery_length_le st _, rfl⟩)

/-- C4: owner resolution performs at most one item fetch and at most one
sibling-reminder query, and every sibling query returns at most 10
documents.  (Determinism and termination hold by construction: the
resolver is a total function of the store and the reminder, with no
recursion.) -/
theorem owner_resolution_bounded :
    ∀ (st : Store) (r : Reminder),
      (resolveOwnerChecked st r).ops.countP StoreOp.isItemFetch ≤ 1 ∧
      (resolveOwnerChecked st r).ops.countP StoreOp.isSiblingQuery ≤ 1 ∧
      (resolveOwnerChecked st r).ops.all StoreOp.bounded = true := by
  intro st r
  simp only [resolveOwnerChecked_ops]
  rcases resolveOwner_ops_cases st r with h | h | ⟨k, hk, h⟩
  · exact ⟨by simp [h], by simp [h], by simp [h]⟩
  · exact ⟨by simp [h, List.countP_cons, StoreOp.isItemFetch],
      by simp [h, List.countP_cons, StoreOp.isSiblingQuery],
      by simp [h, StoreOp.bounded]⟩
  · refine ⟨?_, ?_, ?_⟩ <;>
      simp [h, List.countP_cons, StoreOp.isItemFetch, StoreOp.isSiblingQuery,
        StoreOp.bounded, hk]

/-- Deleting a token touches only the token subcollections. -/
theorem reminders_deleteToken (st : Store) (uid x : String) :
    (st.deleteToken uid x).reminders = st.reminders := rfl

/-- Writing `lastNotificationSent` touches only the `reminders`
collection. -/
theorem tokensFor_setLastNotificationSent (st : Store) (rid : String) (t : Time)
    (uid : String) :
    (st.setLastNotificationSent rid t).tokensFor uid = st.tokensFor uid := rfl

/-- `find?` by key commutes with a key-preserving map over an association
list. -/
theorem find?_key_map (uid : String)
    (f : String × List TokenDoc → String × List TokenDoc)
    (hf : ∀ q, (f q).1 = q.1) (l : List (String × List TokenDoc)) :
    (l.map f).find? (fun q => q.1 == uid) =
      (l.find? (fun q => q.1 == uid)).map f := by
  induction l with
  | nil => rfl
  | cons a l ih =>
      simp only [List.map_cons, List.find?_cons, hf a]
      cases h : (a.1 == uid) with
      | true => rfl
      | false => exact ih

/-- Deleting a token from user `uid`'s subcollection filters that user's
token list by document id. -/
theorem tokensFor_deleteToken_self (st : Store) (uid x : String) :
    (st.deleteToken uid x).tokensFor uid =
      (st.tokensFor uid).filter (fun d => d.id != x) := by
  unfold Store.deleteToken Store.tokensFor
  simp only
  rw [find?_key_map uid _ (fun q => by by_cases hc : q.1 == uid <;> simp [hc])]
  cases h : st.fcmTokens.find? (fun q => q.1 == uid) with
  | none => rfl
  | some q =>
      have hq : (q.1 == uid) = true :=
        List.find?_some (p := fun q : String × List TokenDoc => q.1 == uid) h
      simp only [Option.map_some', Option.getD_some, hq, if_true]

/-- Deleting a token from another user's subcollection leaves `uid`'s
token list unchanged. -/
theorem tokensFor_deleteToken_other (st : Store) (uid uid' x : String)
    (h : uid' ≠ uid) :
    (st.deleteToken uid' x).tokensFor uid = st.tokensFor uid := by
  unfold Store.deleteToken Store.tokensFor
  simp only
  rw [find?_key_map uid _ (fun q => by by_cases hc : q.1 == uid' <;> simp [hc])]
  cases hf : st.fcmTokens.find? (fun q => q.1 == uid) with
  | none => rfl
  | some q =>
      have hq : (q.1 == uid) = true :=
        List.find?_some (p := fun q : String × List TokenDoc => q.1 == uid) hf
      have hq' : (q.1 == uid') = false := by
        simp only [beq_iff_eq] at hq
        simp [hq, Ne.symm h]
      simp only [Option.map_some', Option.getD_some, hq', Bool.false_eq_true, if_false]

/-- The pruner walk never touches the `reminders` collection. -/
theorem reminders_pruneTokensAux (uid : String) (docs : List TokenDoc) :
    ∀ (resps : List TokenResp) (i : Nat) (st : Store),
      (pruneTokensAux uid docs i resps st).reminders = st.reminders := by
  intro resps
  induction resps with
  | nil => intro i st; rfl
  | cons resp rest ih =>
      intro i st
      unfold pruneTokensAux
      simp only
      rw [ih]
      split_ifs
      · cases hd : docs.get? i with
        | none => rfl
        | some d => rfl
      · rfl

/-- The pruner walk for user `uid` leaves other users' token lists
unchanged. -/
theorem tokensFor_pruneTokensAux_other (uid uid' : String) (docs : List TokenDoc)
    (h : uid ≠ uid') :
    ∀ (resps : List TokenResp) (i : Nat) (st : Store),
      (pruneTokensAux uid docs i resps st).tokensFor uid' = st.tokensFor uid' := by
  intro resps
  induction resps with
  | nil => intro i st; rfl
  | cons resp rest ih =>
      intro i st
      unfold pruneTokensAux
      simp only
      rw [ih]
      split_ifs
      · cases hd : docs.get? i with
        | none => rfl
        | some d => exact tokensFor_deleteToken_other st uid' uid d.id h
      · rfl

/-- The pruner walk filters user `uid`'s token list by the deleted ids. -/
theorem tokensFor_pruneTokensAux (uid : String) (docs : List TokenDoc) :
    ∀ (resps : List TokenResp) (i : Nat) (st : Store),
      (pruneTokensAux uid docs i resps st).tokensFor uid =
        (st.tokensFor uid).filter
          (fun d => !(permIds docs i resps).contains d.id) := by
  intro resps
  induction resps with
  | nil =>
      intro i st
      simp [pruneTokensAux, permIds]
  | cons resp rest ih =>
      intro i st
      unfold pruneTokensAux permIds
      simp only
      rw [ih]
      by_cases hp : permanentFailure resp
      · simp only [hp, if_true]
        cases hd : docs.get? i with
        | none => simp
        | some d =>
            rw [tokensFor_deleteToken_self, List.filter_filter]
            apply List.filter_congr
            intro x _
            simp only [List.singleton_append, List.contains_cons, Bool.not_or,
              Bool.and_comm, bne, beq_eq_decide]
      · simp only [hp, if_false]
        simp

/-- Every deleted id comes from the token snapshot. -/
theorem mem_permIds (docs : List TokenDoc) :
    ∀ (resps : List TokenResp) (i : Nat) (x : String),
      x ∈ permIds docs i resps → x ∈ docs.map TokenDoc.id := by
  intro resps
  induction resps with
  | nil => intro i x h; cases h
  | cons resp rest ih =>
      intro i x h
      unfold permIds at h
      rcases List.mem_append.mp h with h | h
      · split_ifs at h
        · cases hd : docs.get? i with
          | none => rw [hd] at h; cases h
          | some d =>
              rw [hd] at h
              simp only [List.mem_singleton] at h
              subst h
              exact List.mem_map_of_mem _ (List.get?_mem hd)
        · cases h
      · exact ih (i + 1) x h

/-- Walking the responses from index `i + 1` against `d :: ds` is walking
them from index `i` against `ds`. -/
theorem permIds_cons_shift (d : TokenDoc) (ds : List TokenDoc) :
    ∀ (resps : List TokenResp) (i : Nat),
      permIds (d :: ds) (i + 1) resps = permIds ds i resps := by
  intro resps
  induction resps with
  | nil => intro i; rfl
  | cons resp rest ih =>
      intro i
      unfold permIds
      rw [ih]
      rfl

/-- With distinct document ids and an index-aligned response vector,
filtering the snapshot by the deleted ids is exactly keeping the
documents whose response is not a permanent failure. -/
theorem filter_permIds_eq_zip (docs : List TokenDoc) :
    ∀ (resps : List TokenResp), resps.length = docs.length →
      (docs.map TokenDoc.id).Nodup →
      docs.filter (fun d => !(permIds docs 0 resps).contains d.id) =
        ((docs.zip resps).filter (fun q => !permanentFailure q.2)).map Prod.fst := by
  induction docs with
  | nil =>
      intro resps hlen _
      cases resps with
      | nil => rfl
      | cons a as => simp at hlen
  | cons d ds ih =>
      intro resps hlen hnodup
      cases resps with
      | nil => simp at hlen
      | cons resp rest =>
          have hlen' : rest.length = ds.length := by simpa using hlen
          have hmapcons : List.map TokenDoc.id (d :: ds) = d.id :: ds.map TokenDoc.id := rfl
          have hcons := List.nodup_cons.mp (hmapcons ▸ hnodup)
          have hnd : d.id ∉ ds.map TokenDoc.id := hcons.1
          have hnodup' : (ds.map TokenDoc.id).Nodup := hcons.2
          have hperm : permIds (d :: ds) 0 (resp :: rest) =
              (if permanentFailure resp then [d.id] else []) ++ permIds ds 0 rest := by
            rw [show permIds (d :: ds) 0 (resp :: rest) =
                (if permanentFailure resp then
                  match (d :: ds).get? 0 with
                  | some x => [x.id]
                  | none => []
                else []) ++ permIds (d :: ds) (0 + 1) rest from rfl]
            rw [permIds_cons_shift]
            rfl
          rw [hperm, List.zip_cons_cons, List.filter_cons, List.filter_cons]
          by_cases hp : permanentFailure resp
          · simp only [hp, if_true, List.singleton_append]
            have hc : ((d.id :: permIds ds 0 rest).contains d.id) = true := by
              simp [List.contains_cons]
            rw [hc]
            simp only [Bool.not_true, Bool.false_eq_true, if_false]
            have hfc : List.filter
                  (fun x : TokenDoc => !(d.id :: permIds ds 0 rest).contains x.id) ds =
                List.filter (fun x : TokenDoc => !(permIds ds 0 rest).contains x.id) ds := by
              apply List.filter_congr
              intro x hx
              have hxid : ¬(x.id = d.id) := fun hEq => hnd (hEq ▸ List.mem_map_of_mem _ hx)
              simp [List.contains_cons, hxid]
            rw [hfc]
            exact ih rest hlen' hnodup'
          · simp only [hp, Bool.false_eq_true, if_false, List.nil_append, Bool.not_false,
              if_true]
            have hmem : d.id ∉ permIds ds 0 rest :=
              fun h => hnd (mem_permIds ds rest 0 d.id h)
            have hc : ((permIds ds 0 rest).contains d.id) = false := by
              simpa using hmem
            rw [hc]
            simp only [Bool.not_false, if_true, List.map_cons]
            rw [ih rest hlen' hnodup']

/-- C6: given a user's token snapshot and the gateway's index-aligned
per-token result vector, the Token Pruner deletes exactly the tokens
whose failure carries a permanent error code; successes and transient
failures are retained. -/
theorem token_pruner_exact :
    ∀ (st : Store) (uid : String) (resps : List TokenResp),
      ((st.tokensFor uid).map TokenDoc.id).Nodup →
      resps.length = (st.tokensFor uid).length →
      (pruneTokens st uid (st.tokensFor uid) resps).tokensFor uid =
        (((st.tokensFor uid).zip resps).filter
          (fun q => !permanentFailure q.2)).map Prod.fst := by
  intro st uid resps hnodup hlen
  unfold pruneTokens
  rw [tokensFor_pruneTokensAux]
  exact filter_permIds_eq_zip (st.tokensFor uid) resps hlen hnodup

/-- Concrete instance of `token_pruner_exact`: of 3 tokens with 1 reported
permanently invalid and 2 succeeding, exactly the 2 surviving tokens
remain. -/
theorem token_pruner_exact_witness :
    (pruneTokens c6Store "u1" (c6Store.tokensFor "u1") c6Resps).tokensFor "u1" =
      [⟨"d1", "tA"⟩, ⟨"d3", "tC"⟩] :=
  (token_pruner_exact c6Store "u1" c6Resps (by decide) (by decide)).trans (by decide)

/-- The pruner leaves the `reminders` collection unchanged. -/
theorem reminders_pruneTokens (st : Store) (uid : String) (docs : List TokenDoc)
    (resps : List TokenResp) :
    (pruneTokens st uid docs resps).reminders = st.reminders :=
  reminders_pruneTokensAux uid docs resps 0 st

/-- The pruner for user `uid` leaves other users' token lists unchanged. -/
theorem tokensFor_pruneTokens_other (st : Store) (uid uid' : String)
    (docs : List TokenDoc) (resps : List TokenResp) (h : uid ≠ uid') :
    (pruneTokens st uid docs resps).tokensFor uid' = st.tokensFor uid' :=
  tokensFor_pruneTokensAux_other uid uid' docs h resps 0 st

/-- A send appends exactly one gateway invocation to the trace, whether it
returns or throws. -/
theorem sendForReminder_calls (gw : Gateway) (uid : String) (tokens : List String)
    (tokenDocs : List TokenDoc) (badge : Nat) (wt : Time) (acc : DispatchAcc)
    (r : Reminder) :
    (sendForReminder gw uid tokens tokenDocs badge wt acc r).calls =
      acc.calls ++ [buildMessage r tokens badge] := by
  unfold sendForReminder
  simp only
  cases h : gw (buildMessage r tokens badge) with
  | error e => simp only [h]
  | ok resp =>
      simp only [h]
      split_ifs <;> rfl

/-- A send leaves the `reminders` collection either unchanged (thrown
exception) or updated by the single `lastNotificationSent` write. -/
theorem sendForReminder_reminders (gw : Gateway) (uid : String)
    (tokens : List String) (tokenDocs : List TokenDoc) (badge : Nat) (wt : Time)
    (acc : DispatchAcc) (r : Reminder) :
    (sendForReminder gw uid tokens tokenDocs badge wt acc r).store.reminders =
        acc.store.reminders ∨
    (sendForReminder gw uid tokens tokenDocs badge wt acc r).store.reminders =
        (acc.store.setLastNotificationSent r.id wt).reminders := by
  unfold sendForReminder
  simp only
  cases h : gw (buildMessage r tokens badge) with
  | error e => simp only [h]; exact Or.inl trivial
  | ok resp =>
      simp only [h]
      split_ifs
      · right
        exact reminders_pruneTokens _ _ _ _
      · right
        rfl

/-- A send for user `uid` leaves other users' token lists unchanged. -/
theorem sendForReminder_tokensFor_other (gw : Gateway) (uid : String)
    (tokens : List String) (tokenDocs : List TokenDoc) (badge : Nat) (wt : Time)
    (acc : DispatchAcc) (r : Reminder) (u : String) (h : u ≠ uid) :
    (sendForReminder gw uid tokens tokenDocs badge wt acc r).store.tokensFor u =
      acc.store.tokensFor u := by
  unfold sendForReminder
  simp only
  cases hg : gw (buildMessage r tokens badge) with
  | error e => simp only [hg]
  | ok resp =>
      simp only [hg]
      split_ifs
      · rw [tokensFor_pruneTokens_other _ _ _ _ _ (Ne.symm h)]
        rfl
      · rfl

/-- The inner loop's gateway-call trace: one call per reminder of the
group, in order, each with the token list and badge fixed at group entry
— independent of the gateway's outcomes. -/
theorem groupFold_calls (gw : Gateway) (wc : String → Time) (uid : String)
    (tokens : List String) (tokenDocs : List TokenDoc) (badge : Nat) :
    ∀ (rs : List Reminder) (acc : DispatchAcc),
      (groupFold gw wc uid tokens tokenDocs badge rs acc).calls =
        acc.calls ++ rs.map (fun r => buildMessage r tokens badge) := by
  intro rs
  induction rs with
  | nil => intro acc; simp [groupFold]
  | cons r rs ih =>
      intro acc
      show (groupFold gw wc uid tokens tokenDocs badge rs
          (sendForReminder gw uid tokens tokenDocs badge (wc r.id) acc r)).calls = _
      rw [ih, sendForReminder_calls]
      simp

/-- The inner loop for user `uid` leaves other users' token lists
unchanged. -/
theorem groupFold_tokensFor_other (gw : Gateway) (wc : String → Time) (uid : String)
    (tokens : List String) (tokenDocs : List TokenDoc) (badge : Nat) (u : String)
    (h : u ≠ uid) :
    ∀ (rs : List Reminder) (acc : DispatchAcc),
      (groupFold gw wc uid tokens tokenDocs badge rs acc).store.tokensFor u =
        acc.store.tokensFor u := by
  intro rs
  induction rs with
  | nil => intro acc; rfl
  | cons r rs ih =>
      intro acc
      show (groupFold gw wc uid tokens tokenDocs badge rs
          (sendForReminder gw uid tokens tokenDocs badge (wc r.id) acc r)).store.tokensFor u = _
      rw [ih, sendForReminder_tokensFor_other gw uid tokens tokenDocs badge (wc r.id) acc r u h]

/-- One user group appends to the trace exactly the group-skip-or-send
segment computed from the store at group entry. -/
theorem dispatchGroup_calls (gw : Gateway) (wc : String → Time) (acc : DispatchAcc)
    (uid : String) (rs : List Reminder) :
    (dispatchGroup gw wc acc (uid, rs)).calls =
      acc.calls ++
        (if (acc.store.tokensFor uid).isEmpty then []
         else rs.map (fun r =>
           buildMessage r ((acc.store.tokensFor uid).map (fun d => d.token)) rs.length)) := by
  unfold dispatchGroup
  simp only
  split_ifs with h
  · simp
  · rw [groupFold_calls]

/-- One user group leaves other users' token lists unchanged. -/
theorem dispatchGroup_tokensFor_other (gw : Gateway) (wc : String → Time)
    (acc : DispatchAcc) (uid : String) (rs : List Reminder) (u : String)
    (h : u ≠ uid) :
    (dispatchGroup gw wc acc (uid, rs)).store.tokensFor u =
      acc.store.tokensFor u := by
  unfold dispatchGroup
  simp only
  split_ifs with hc
  · rfl
  · exact groupFold_tokensFor_other gw wc uid _ _ _ u h rs acc

/-- The write itself establishes the record. -/
theorem recordedAt_set_self (st : Store) (rid : String) (t : Time) :
    RecordedAt (st.setLastNotificationSent rid t).reminders rid t := by
  intro s hs hid
  unfold Store.setLastNotificationSent at hs
  simp only [List.mem_map] at hs
  obtain ⟨q, hq, rfl⟩ := hs
  by_cases h : q.id = rid
  · simp [h]
  · rw [if_neg (by simpa using h)] at hid ⊢
    exact absurd hid h

/-- A write for a different reminder id preserves the record. -/
theorem recordedAt_set_other (st : Store) (rid rid' : String) (t t' : Time)
    (hne : rid' ≠ rid) (h : RecordedAt st.reminders rid t) :
    RecordedAt (st.setLastNotificationSent rid' t').reminders rid t := by
  intro s hs hid
  unfold Store.setLastNotificationSent at hs
  simp only [List.mem_map] at hs
  obtain ⟨q, hq, rfl⟩ := hs
  by_cases hc : q.id = rid'
  · rw [if_pos (by simpa using hc)] at hid ⊢
    exact absurd (show q.id = rid from hid) (hc ▸ hne ∘ fun hx => hx)
  · rw [if_neg (by simpa using hc)] at hid ⊢
    exact h q hq hid

/-- A send whose gateway call returns establishes the record for its own
reminder at the write time. -/
theorem sendForReminder_records (gw : Gateway) (uid : String) (tokens : List String)
    (tokenDocs : List TokenDoc) (badge : Nat) (wt : Time) (acc : DispatchAcc)
    (r : Reminder) (resp : MulticastResponse)
    (hgw : gw (buildMessage r tokens badge) = .ok resp) :
    RecordedAt (sendForReminder gw uid tokens tokenDocs badge wt acc r).store.reminders
      r.id wt := by
  unfold sendForReminder
  simp only [hgw]
  split_ifs
  · rw [reminders_pruneTokens]
    exact recordedAt_set_self acc.store r.id wt
  · exact recordedAt_set_self acc.store r.id wt

/-- A send for a reminder with a different id preserves the record. -/
theorem sendForReminder_preserves_recorded (gw : Gateway) (uid : String)
    (tokens : List String) (tokenDocs : List TokenDoc) (badge : Nat) (wt : Time)
    (acc : DispatchAcc) (r : Reminder) (rid : String) (t : Time)
    (hne : r.id ≠ rid) (h : RecordedAt acc.store.reminders rid t) :
    RecordedAt (sendForReminder gw uid tokens tokenDocs badge wt acc r).store.reminders
      rid t := by
  rcases sendForReminder_reminders gw uid tokens tokenDocs badge wt acc r with hr | hr
  · rw [hr]; exact h
  · rw [hr]; exact recordedAt_set_other acc.store rid r.id t wt hne h

/-- The rest of the group preserves the record when no later reminder
shares the id. -/
theorem groupFold_preserves_recorded (gw : Gateway) (wc : String → Time)
    (uid : String) (tokens : List String) (tokenDocs : List TokenDoc) (badge : Nat)
    (rid : String) (t : Time) :
    ∀ (rs : List Reminder) (acc : DispatchAcc),
      RecordedAt acc.store.reminders rid t →
      (∀ r' ∈ rs, r'.id ≠ rid) →
      RecordedAt (groupFold gw wc uid tokens tokenDocs badge rs acc).store.reminders
        rid t := by
  intro rs
  induction rs with
  | nil => intro acc h _; exact h
  | cons r rs ih =>
      intro acc h hne
      show RecordedAt (groupFold gw wc uid tokens tokenDocs badge rs
          (sendForReminder gw uid tokens tokenDocs badge (wc r.id) acc r)).store.reminders rid t
      exact ih _
        (sendForReminder_preserves_recorded gw uid tokens tokenDocs badge (wc r.id) acc r
          rid t (hne r (List.mem_cons_self r rs)) h)
        (fun r' hr' => hne r' (List.mem_cons_of_mem r hr'))

/-- A group whose gateway call for `r` returns ends with `r`'s record set
to `r`'s write time, provided ids within the group are distinct. -/
theorem groupFold_records (gw : Gateway) (wc : String → Time) (uid : String)
    (tokens : List String) (tokenDocs : List TokenDoc) (badge : Nat) :
    ∀ (rs : List Reminder) (acc : DispatchAcc) (r : Reminder)
      (resp : MulticastResponse),
      r ∈ rs → (rs.map Reminder.id).Nodup →
      gw (buildMessage r tokens badge) = .ok resp →
      RecordedAt (groupFold gw wc uid tokens tokenDocs badge rs acc).store.reminders
        r.id (wc r.id) := by
  intro rs
  induction rs with
  | nil => intro acc r resp h _ _; cases h
  | cons r' rs ih =>
      intro acc r resp hmem hnodup hgw
      have hnodup' : (rs.map Reminder.id).Nodup := by
        rw [List.map_cons] at hnodup
        exact (List.nodup_cons.mp hnodup).2
      have hhead : r'.id ∉ rs.map Reminder.id := by
        rw [List.map_cons] at hnodup
        exact (List.nodup_cons.mp hnodup).1
      rcases List.mem_cons.mp hmem with rfl | hmem'
      · show RecordedAt (groupFold gw wc uid tokens tokenDocs badge rs
            (sendForReminder gw uid tokens tokenDocs badge (wc r.id) acc r)).store.reminders
            r.id (wc r.id)
        apply groupFold_preserves_recorded
        · exact sendForReminder_records gw uid tokens tokenDocs badge (wc r.id) acc r resp hgw
        · intro r'' hr'' hEq
          exact hhead (hEq ▸ List.mem_map_of_mem Reminder.id hr'')
      · exact ih _ r resp hmem' hnodup' hgw

/-- A reminder whose `lastNotificationSent` is `t` fails the scanner's
debounce filter at any cycle time earlier than `t + DEBOUNCE_MS`. -/
theorem statusDebounceFilter_recent (now' : Time) (s : Reminder) (t : Time)
    (h : s.lastNotificationSent = some t) (hlt : now' < t + DEBOUNCE_MS) :
    statusDebounceFilter now' s = false := by
  unfold statusDebounceFilter
  rw [h]
  split_ifs with hc
  · rfl
  · have hgt : t > now' - DEBOUNCE_MS := by linarith
    simp [hgt]

/-- Counterexample to C5 as stated: running the cycle at `now = 0` with
the `lastNotificationSent` write (`new Date()` at server.js:1190) issued
at wall-clock time 1000 records `some 1000` on the reminder — the
write-time clock reading, not the cycle's `now = 0` captured at
server.js:979. -/
theorem lastNotificationSent_not_cycle_now :
    ((checkAndSendNotifications c5Gateway c5WriteClock 0 c5Store).store.reminders.map
      (fun r => r.lastNotificationSent)) = [some 1000] ∧
    ¬ ((some (1000 : Int) : Option Time) = some 0) :=
  ⟨by decide, by decide⟩

/-- C5 (amended): for every reminder of a dispatched group whose multicast
send returns (successfully or with per-token failures), the dispatcher
records `lastNotificationSent` equal to the wall-clock time of the write
(`new Date()` at the moment of the write, which may exceed the cycle's
`now`), and the reminder is excluded by the debounce check from any
following cycle that starts strictly within `DEBOUNCE_MS` of that write
time. -/
theorem dispatch_records_write_time :
    ∀ (gw : Gateway) (wc : String → Time) (acc : DispatchAcc) (uid : String)
      (rs : List Reminder) (r : Reminder) (resp : MulticastResponse),
      r ∈ rs →
      (rs.map Reminder.id).Nodup →
      (acc.store.tokensFor uid).isEmpty = false →
      gw (buildMessage r ((acc.store.tokensFor uid).map (fun d => d.token))
        rs.length) = .ok resp →
      ∀ s ∈ (dispatchGroup gw wc acc (uid, rs)).store.reminders,
        s.id = r.id →
        s.lastNotificationSent = some (wc r.id) ∧
        ∀ now' : Time, now' < wc r.id + DEBOUNCE_MS →
          statusDebounceFilter now' s = false := by
  intro gw wc acc uid rs r resp hmem hnodup hne hgw s hs hid
  have hrec : RecordedAt (dispatchGroup gw wc acc (uid, rs)).store.reminders
      r.id (wc r.id) := by
    unfold dispatchGroup
    simp only
    rw [if_neg (by simp [hne])]
    exact groupFold_records gw wc uid _ _ _ rs acc r resp hmem hnodup hgw
  have h1 := hrec s hs hid
  exact ⟨h1, fun now' hlt => statusDebounceFilter_recent now' s (wc r.id) h1 hlt⟩

/-- Concrete instance of `dispatch_records_write_time`: the dispatched
reminder's record carries the write time 1000 and is excluded at a next
cycle starting at time 300999 < 1000 + DEBOUNCE_MS. -/
theorem dispatch_records_write_time_witness :
    c5Out.lastNotificationSent = some 1000 ∧
    statusDebounceFilter 300999 c5Out = false :=
  have h := dispatch_records_write_time c5Gateway c5WriteClock ⟨c5Store, 0, 0, []⟩
    "u1" [c5Reminder] c5Reminder ⟨[⟨true, none⟩]⟩ (by decide) (by decide)
    (by decide) rfl c5Out (by decide) (by decide)
  ⟨h.1, h.2 300999 (by decide)⟩

/-- The phase trace: walking the groups appends, per group, its skip-or-
send segment, with each group's token-emptiness judged against the phase's
initial store (earlier groups only ever touch their own user's tokens). -/
theorem foldl_dispatchGroup_calls (gw : Gateway) (wc : String → Time) :
    ∀ (groups : List (String × List Reminder)) (acc : DispatchAcc) (st : Store),
      (groups.map Prod.fst).Nodup →
      (∀ g ∈ groups, acc.store.tokensFor g.1 = st.tokensFor g.1) →
      (groups.foldl (dispatchGroup gw wc) acc).calls.map (fun m => m.reminderId) =
        acc.calls.map (fun m => m.reminderId) ++
          groups.flatMap (fun g =>
            if (st.tokensFor g.1).isEmpty then [] else g.2.map Reminder.id) := by
  intro groups
  induction groups with
  | nil => intro acc st _ _; simp
  | cons g groups ih =>
      intro acc st hnodup hinv
      obtain ⟨uid, rs⟩ := g
      rw [List.foldl_cons, List.flatMap_cons]
      have hmapcons : List.map Prod.fst ((uid, rs) :: groups) =
          uid :: groups.map Prod.fst := rfl
      have hcons := List.nodup_cons.mp (hmapcons ▸ hnodup)
      have hinv' : ∀ g' ∈ groups,
          (dispatchGroup gw wc acc (uid, rs)).store.tokensFor g'.1 =
            st.tokensFor g'.1 := by
        intro g' hg'
        have hne : g'.1 ≠ uid := by
          intro hEq
          exact hcons.1 (hEq ▸ List.mem_map_of_mem Prod.fst hg')
        rw [dispatchGroup_tokensFor_other gw wc acc uid rs g'.1 hne]
        exact hinv g' (List.mem_cons_of_mem _ hg')
      rw [ih (dispatchGroup gw wc acc (uid, rs)) st hcons.2 hinv']
      rw [dispatchGroup_calls]
      rw [hinv (uid, rs) (List.mem_cons_self _ _)]
      split_ifs with hc
      · simp
      · simp only [List.map_append, List.map_map, List.append_assoc]
        rfl

/-- C7: a thrown send exception is caught and counted without touching the
store, and the sequence of gateway invocations of a dispatch cycle — one
per reminder of every group whose user has tokens — does not depend on
any gateway outcome, thrown or failed. -/
theorem send_failure_isolated :
    (∀ (gw : Gateway) (uid : String) (tokens : List String)
       (tokenDocs : List TokenDoc) (badge : Nat) (wt : Time) (acc : DispatchAcc)
       (r : Reminder) (e : String),
       gw (buildMessage r tokens badge) = .error e →
       sendForReminder gw uid tokens tokenDocs badge wt acc r =
         { acc with calls := acc.calls ++ [buildMessage r tokens badge],
                    failed := acc.failed + 1 }) ∧
    (∀ (gw : Gateway) (wc : String → Time) (st : Store)
       (groups : List (String × List Reminder)),
       (groups.map Prod.fst).Nodup →
       (dispatchPhase gw wc st groups).calls.map (fun m => m.reminderId) =
         groups.flatMap (fun g =>
           if (st.tokensFor g.1).isEmpty then [] else g.2.map Reminder.id)) := by
  constructor
  · intro gw uid tokens tokenDocs badge wt acc r e hgw
    unfold sendForReminder
    simp only [hgw]
  · intro gw wc st groups hnodup
    unfold dispatchPhase
    have h := foldl_dispatchGroup_calls gw wc groups ⟨st, 0, 0, []⟩ st hnodup
      (fun _ _ => rfl)
    simpa using h

/-- Concrete instance of `send_failure_isolated`: a gateway that throws on
reminder `rA` does not prevent `rB` of the same group, nor user `u2`'s
`rC`, from being sent. -/
theorem send_failure_isolated_witness :
    (dispatchPhase c7Gateway (fun _ => 7) c7Store c7Groups).calls.map
      (fun m => m.reminderId) = ["rA", "rB", "rC"] :=
  (send_failure_isolated.2 c7Gateway (fun _ => 7) c7Store c7Groups (by decide)).trans
    (by decide)

/-- C10: within one cycle, a user's token list is materialized once at
group entry (lines 1120-1128): every multicast call of the group carries
that same list — so a token the pruner deletes from the store after an
earlier reminder's send is still in the list passed for every later
reminder of the group. -/
theorem tokens_fetched_once_per_group :
    ∀ (gw : Gateway) (wc : String → Time) (acc : DispatchAcc) (uid : String)
      (rs : List Reminder),
      (dispatchGroup gw wc acc (uid, rs)).calls =
        acc.calls ++
          (if (acc.store.tokensFor uid).isEmpty then []
           else rs.map (fun r =>
             buildMessage r ((acc.store.tokensFor uid).map (fun d => d.token))
               rs.length)) :=
  fun gw wc acc uid rs => dispatchGroup_calls gw wc acc uid rs

/-- C8: with `db` or `messaging` unavailable the Scheduler Loop does not
start at all — no timer fires and the disabled state is logged; with both
available it registers a one-shot first cycle after 10 seconds and a
recurring cycle every 5 minutes.  (The guard returns normally in both
cases: startup never throws.) -/
theorem scheduler_startup_guard :
    ∀ (dbA msgA : Bool) (t0 : Time),
      (startNotificationScheduler dbA msgA =
        if dbA && msgA then
          (.started 10000 300000,
            ["✅ Notification scheduler started (runs every 5 minutes)"])
        else
          (.disabled,
            ["⏭️  Notification scheduler not started - Firebase not available"])) ∧
      (cycleFireTime (startNotificationScheduler dbA msgA).1 t0 0 =
        if dbA && msgA then some (t0 + 10000) else none) ∧
      (∀ n : Nat, 0 < n →
        cycleFireTime (startNotificationScheduler dbA msgA).1 t0 n =
          if dbA && msgA then some (t0 + 300000 * (n : Int)) else none) := by
  intro dbA msgA t0
  refine ⟨?_, ?_, ?_⟩
  · cases dbA <;> cases msgA <;> rfl
  · cases dbA <;> cases msgA <;> rfl
  · intro n hn
    have hn' : ¬(n = 0) := Nat.pos_iff_ne_zero.mp hn
    cases dbA <;> cases msgA
    · rfl
    · rfl
    · rfl
    · show cycleFireTime (SchedulerStart.started 10000 (5 * 60 * 1000)) t0 n =
        some (t0 + 300000 * (n : Int))
      simp only [cycleFireTime]
      rw [if_neg hn']
      norm_num

/-- Concrete instance of `scheduler_startup_guard`: with both dependencies
available the third timer cycle fires at `t0 + 2 * 300000`. -/
theorem scheduler_startup_guard_witness :
    cycleFireTime (startNotificationScheduler true true).1 0 2 =
      if true && true then some ((0 : Int) + 300000 * ((2 : Nat) : Int)) else none :=
  (scheduler_startup_guard true true 0).2.2 2 (by decide)

/-- Counterexample to C9: with one cycle already in flight, a timer fire
(and likewise a manual trigger) starts a second concurrent cycle — the
call sites consult no guard state, so the overlap is neither skipped nor
serialized. -/
theorem overlap_not_guarded :
    (intervalCallbackFires ⟨1⟩).inFlightCycles = 2 ∧
    (triggerEndpointFires ⟨1⟩).inFlightCycles = 2 :=
  ⟨rfl, rfl⟩

/-- C9 (amended): there is no reentrancy guard: the interval callback and
the manual trigger endpoint unconditionally start one more in-flight
cycle, whatever the number already running. -/
theorem scheduler_no_reentrancy_guard :
    ∀ p : DispatcherProcess,
      (intervalCallbackFires p).inFlightCycles = p.inFlightCycles + 1 ∧
      (triggerEndpointFires p).inFlightCycles = p.inFlightCycles + 1 :=
  fun _ => ⟨rfl, rfl⟩
